import Mathlib

/-
Shallow embedding of the course-catalog Flask application
(`src/CS203_Lab_01-main/app.py`).

The persisted store is the single JSON file `course_catalog.json`.  We model
its observable states and the handlers' effect on it explicitly:

  * `Json`          - the JSON values the application reads and writes
                      (strings, arrays, objects, and `null`, which is what
                      `request.form.get` yields for an absent field);
  * `FileState`     - the backing file: absent, present but unparseable, or a
                      parsed JSON array (the application only ever writes
                      arrays via `json.dump(courses, ...)`);
  * `PyError`       - the Python exceptions the relevant code can raise:
                      `json.JSONDecodeError` from `json.load`, and
                      `KeyError` / `TypeError` from subscripting loaded data;
  * handlers return the resulting `FileState` paired with either a normal
    outcome or a propagated exception.

Python's `==` on the values the handlers compare (strings and `None`) is
structural equality, which `Json.beq` implements.
-/

inductive Json where
  | null : Json
  | str : String → Json
  | arr : List Json → Json
  | obj : List (String × Json) → Json

mutual

/-- Structural equality on JSON values, modelling Python `==` on the values
the application compares (strings, `None`, and mismatched types, where
Python `==` is `False` without raising). -/
def Json.beq : Json → Json → Bool
  | .null, .null => true
  | .str a, .str b => a == b
  | .arr xs, .arr ys => Json.beqList xs ys
  | .obj kvs, .obj lvs => Json.beqFields kvs lvs
  | _, _ => false

def Json.beqList : List Json → List Json → Bool
  | [], [] => true
  | x :: xs, y :: ys => Json.beq x y && Json.beqList xs ys
  | _, _ => false

def Json.beqFields : List (String × Json) → List (String × Json) → Bool
  | [], [] => true
  | (k, v) :: xs, (l, w) :: ys => k == l && Json.beq v w && Json.beqFields xs ys
  | _, _ => false

end

instance : BEq Json := ⟨Json.beq⟩

/-- Python truthiness for the JSON values in play: `None`, the empty string,
and empty containers are falsy (used by `all(course.values())` at line 88 and
`if not course:` at line 119 of `app.py`). -/
def pyTruthy : Json → Bool
  | .null => false
  | .str s => !(s == "")
  | .arr xs => !xs.isEmpty
  | .obj kvs => !kvs.isEmpty

/-- Exceptions the embedded code can raise. -/
inductive PyError where
  | parseError
  | keyError
  | typeError
deriving DecidableEq

/-- Observable states of the backing file `course_catalog.json`. -/
inductive FileState where
  | absent : FileState
  | malformed : FileState
  | jsonList : List Json → FileState

/-- `load_courses` (app.py lines 27-32): returns `[]` when the file does not
exist, raises a parse error on malformed content, and otherwise returns the
parsed JSON array. -/
def load_courses : FileState → Except PyError (List Json)
  | .absent => .ok []
  | .malformed => .error .parseError
  | .jsonList items => .ok items

/-- `save_courses(data)` (app.py lines 35-40): re-loads the current file,
appends its argument `data` as a single element, and rewrites the whole file.
If the load raises, the exception propagates before any write, so the file is
unchanged. -/
def save_courses (fs : FileState) (data : Json) : FileState × Except PyError Unit :=
  match load_courses fs with
  | .error e => (fs, .error e)
  | .ok courses => (.jsonList (courses ++ [data]), .ok ())

/-- Python subscripting `value["k"]` on a loaded JSON value: the value of the
key for an object holding it, `KeyError` for an object without it, and
`TypeError` for any non-object (e.g. a list indexed by a string). -/
def jsonIndex : Json → String → Except PyError Json
  | .obj kvs, k =>
      match kvs.find? (fun kv => kv.1 == k) with
      | some kv => .ok kv.2
      | none => .error .keyError
  | _, _ => .error .typeError

/-- The nine form fields of `POST /add_course`; `request.form.get` yields
`none` for an absent field. -/
structure Form where
  code : Option String
  name : Option String
  instructor : Option String
  semester : Option String
  schedule : Option String
  classroom : Option String
  prerequisites : Option String
  grading : Option String
  description : Option String
deriving DecidableEq

/-- A `request.form.get` result as the Python value stored in the course
dict: `None` becomes JSON `null`. -/
def optStr : Option String → Json
  | none => .null
  | some s => .str s

/-- The course dict built from the form (app.py lines 74-84), with the keys
in source order. -/
def form_course (f : Form) : Json :=
  .obj [("code", optStr f.code), ("name", optStr f.name),
        ("instructor", optStr f.instructor), ("semester", optStr f.semester),
        ("schedule", optStr f.schedule), ("classroom", optStr f.classroom),
        ("prerequisites", optStr f.prerequisites), ("grading", optStr f.grading),
        ("description", optStr f.description)]

/-- The values of a JSON object, in key order (Python `dict.values()`). -/
def objValues : Json → List Json
  | .obj kvs => kvs.map Prod.snd
  | _ => []

/-- The validation `all(course.values())` (app.py line 88): every one of the
nine values must be truthy, i.e. present and a non-empty string. -/
def allFieldsFilled (f : Form) : Bool :=
  (objValues (form_course f)).all pyTruthy

/-- The duplicate scan
`any(existing_course["code"] == course["code"] for existing_course in courses)`
(app.py line 92): short-circuiting left-to-right; subscripting a non-dict
element raises before the comparison. Here `v` is the new course's `"code"`
value, `optStr f.code`. -/
def anyCodeMatch (v : Json) : List Json → Except PyError Bool
  | [] => .ok false
  | c :: rest =>
      match jsonIndex c "code" with
      | .error e => .error e
      | .ok w => if w == v then .ok true else anyCodeMatch v rest

/-- User-visible outcomes of `POST /add_course`. -/
inductive AddResult where
  | missingFields
  | duplicateCode
  | added
deriving DecidableEq

/-- The `POST` branch of `add_course` (app.py lines 72-103).  Note the bug
site at lines 99-100: the handler runs `courses.append(course)` and then
`save_courses(courses)`, passing the WHOLE list; `save_courses` re-loads the
file and appends its argument as a single element, so the persisted result is
`courses ++ [Json.arr (courses ++ [course])]`. -/
def add_course_post (fs : FileState) (f : Form) : FileState × Except PyError AddResult :=
  if allFieldsFilled f then
    match load_courses fs with
    | .error e => (fs, .error e)
    | .ok courses =>
        match anyCodeMatch (optStr f.code) courses with
        | .error e => (fs, .error e)
        | .ok true => (fs, .ok .duplicateCode)
        | .ok false =>
            match save_courses fs (.arr (courses ++ [form_course f])) with
            | (fs2, .ok _) => (fs2, .ok .added)
            | (fs2, .error e) => (fs2, .error e)
  else (fs, .ok .missingFields)

/-- The `GET` branch of `/add_course`: renders the empty form, touching no
data. -/
def add_course_get (fs : FileState) : FileState × Unit :=
  (fs, ())

/-- `GET /catalog` (app.py lines 53-62): loads the courses for rendering and
performs no write. -/
def course_catalog (fs : FileState) : FileState × Except PyError (List Json) :=
  match load_courses fs with
  | .error e => (fs, .error e)
  | .ok courses => (fs, .ok courses)

/-- The scan `next((course for course in courses if course['code'] == code), None)`
(app.py line 117): first match wins; subscripting a non-dict element raises
before the comparison. -/
def firstCodeMatch (code : String) : List Json → Except PyError (Option Json)
  | [] => .ok none
  | c :: rest =>
      match jsonIndex c "code" with
      | .error e => .error e
      | .ok w => if w == Json.str code then .ok (some c) else firstCodeMatch code rest

/-- User-visible outcomes of `GET /course/{code}`. -/
inductive DetailsResult where
  | details : Json → DetailsResult
  | notFound : DetailsResult

/-- `GET /course/{code}` (app.py lines 108-125): loads the catalog, scans for
the first record with the given code, and treats `None` — and, by the
`if not course:` truthiness test, any falsy match — as not found. -/
def course_details (fs : FileState) (code : String) : FileState × Except PyError DetailsResult :=
  match load_courses fs with
  | .error e => (fs, .error e)
  | .ok courses =>
      match firstCodeMatch code courses with
      | .error e => (fs, .error e)
      | .ok found =>
          match found with
          | some c => if pyTruthy c then (fs, .ok (.details c)) else (fs, .ok .notFound)
          | none => (fs, .ok .notFound)

/-- A well-formed course record: the nine mandatory string fields. -/
structure Course where
  code : String
  name : String
  instructor : String
  semester : String
  schedule : String
  classroom : String
  prerequisites : String
  grading : String
  description : String
deriving DecidableEq

/-- The JSON object a `Course` is stored as. -/
def Course.toJson (c : Course) : Json :=
  .obj [("code", .str c.code), ("name", .str c.name),
        ("instructor", .str c.instructor), ("semester", .str c.semester),
        ("schedule", .str c.schedule), ("classroom", .str c.classroom),
        ("prerequisites", .str c.prerequisites), ("grading", .str c.grading),
        ("description", .str c.description)]

/-- The form submission carrying exactly the fields of a `Course`. -/
def Course.toForm (c : Course) : Form :=
  ⟨some c.code, some c.name, some c.instructor, some c.semester, some c.schedule,
   some c.classroom, some c.prerequisites, some c.grading, some c.description⟩

/-- Repeated correct use of `save_courses`, one record at a time, threading
the file state (the spec's append-and-save written N times). -/
def saveAll : FileState → List Json → FileState × Except PyError Unit
  | fs, [] => (fs, .ok ())
  | fs, r :: rest =>
      match save_courses fs r with
      | (fs2, .ok _) => saveAll fs2 rest
      | (fs2, .error e) => (fs2, .error e)

/-- The spec's scenario course (section 8 of the design document). -/
def cs101 : Course :=
  ⟨"CS101", "Intro", "A", "F24", "MWF", "101", "None", "Letter", "Intro course"⟩

/-- A second course record sharing the scenario course's `code`. -/
def cs101b : Course :=
  ⟨"CS101", "Other", "B", "S25", "TT", "202", "None", "Pass", "Second entry"⟩

/-- A submission whose `code` field is the empty string (invalid). -/
def emptyCodeForm : Form :=
  ⟨some "", some "Intro", some "A", some "F24", some "MWF", some "101",
   some "None", some "Letter", some "Intro course"⟩

/- Helper lemmas shared by several claim theorems. -/

/-- Saving records one at a time onto a parsed array appends them in order. -/
theorem saveAll_jsonList (rs : List Json) (L : List Json) :
    saveAll (FileState.jsonList L) rs = (FileState.jsonList (L ++ rs), .ok ()) := by
  induction rs generalizing L with
  | nil => simp [saveAll]
  | cons r rest ih =>
      simp [saveAll, save_courses, load_courses, ih (L ++ [r])]

/-- A stored course record is a non-empty object, hence truthy in Python. -/
theorem pyTruthy_toJson (c : Course) : pyTruthy c.toJson = true := rfl

/-- Indexing a stored course record at `"code"` yields its code string. -/
theorem jsonIndex_toJson_code (c : Course) :
    jsonIndex c.toJson "code" = .ok (.str c.code) := rfl

/-- On a catalog of well-formed course records the scan of
`GET /course/{code}` raises nothing and returns the first record whose
`code` field equals the query. -/
theorem firstCodeMatch_map (code : String) (courses : List Course) :
    firstCodeMatch code (courses.map Course.toJson)
      = .ok ((courses.find? (fun c => c.code == code)).map Course.toJson) := by
  induction courses with
  | nil => rfl
  | cons c rest ih =>
      have hbeq : (Json.str c.code == Json.str code) = (c.code == code) := rfl
      simp only [List.map_cons, firstCodeMatch, jsonIndex_toJson_code, hbeq, List.find?]
      by_cases h : (c.code == code) = true
      · rw [if_pos h, h]
        rfl
      · rw [if_neg h, ih, Bool.not_eq_true] at *
        rw [h]

/-- C3: for every persisted collection `L` and every course record `c`,
`save_courses` (the spec's `appendAndSave`) rewrites the file so that a
subsequent `load_courses` returns exactly `L ++ [c]`; an absent file behaves
as the empty collection. -/
theorem C3_save_courses_appends (L : List Json) (c : Json) :
    save_courses (FileState.jsonList L) c = (FileState.jsonList (L ++ [c]), .ok ()) ∧
    load_courses (save_courses (FileState.jsonList L) c).1 = .ok (L ++ [c]) ∧
    save_courses FileState.absent c = (FileState.jsonList [c], .ok ()) ∧
    load_courses (save_courses FileState.absent c).1 = .ok [c] := by
  refine ⟨rfl, rfl, rfl, rfl⟩

/-- C4: a submission in which at least one of the nine fields is absent or
the empty string makes `add_course` fail with the missing-fields outcome,
write nothing, and leave the loaded catalog exactly as before. -/
theorem C4_missing_fields_no_effect (fs : FileState) (f : Form)
    (h : ∃ v ∈ [f.code, f.name, f.instructor, f.semester, f.schedule,
                f.classroom, f.prerequisites, f.grading, f.description],
          v = none ∨ v = some "") :
    add_course_post fs f = (fs, .ok AddResult.missingFields) ∧
    load_courses (add_course_post fs f).1 = load_courses fs := by
  have hv : allFieldsFilled f = false := by
    obtain ⟨v, hmem, hcase⟩ := h
    simp only [List.mem_cons, List.not_mem_nil, or_false] at hmem
    rcases hmem with rfl | rfl | rfl | rfl | rfl | rfl | rfl | rfl | rfl <;>
      rcases hcase with hc | hc <;>
        simp [allFieldsFilled, form_course, objValues, optStr, pyTruthy, hc]
  constructor
  · simp [add_course_post, hv]
  · simp [add_course_post, hv]

/-- Witness for C4 at a concrete input: a submission whose `code` is the
empty string is rejected with no change to an absent store. -/
theorem C4_missing_fields_no_effect_witness :
    add_course_post FileState.absent emptyCodeForm
        = (FileState.absent, .ok AddResult.missingFields) ∧
    load_courses (add_course_post FileState.absent emptyCodeForm).1
        = load_courses FileState.absent :=
  C4_missing_fields_no_effect FileState.absent emptyCodeForm
    ⟨some "", by decide, Or.inr rfl⟩

/-- C7: on an absent backing file `load_courses` returns the empty list
rather than an error, and every read operation therefore sees an empty
catalog. -/
theorem C7_absent_file_empty_catalog :
    load_courses FileState.absent = .ok [] ∧
    course_catalog FileState.absent = (FileState.absent, .ok []) ∧
    (∀ code, course_details FileState.absent code
        = (FileState.absent, .ok DetailsResult.notFound)) := by
  exact ⟨rfl, rfl, fun code => rfl⟩

/-- C8: on a malformed backing file `load_courses` fails with the parse
error, and the error propagates unrecovered out of every operation that
reads the store: the catalog listing, the details lookup, a valid-form
`POST /add_course`, and `save_courses` itself. -/
theorem C8_malformed_parse_error_propagates :
    load_courses FileState.malformed = .error PyError.parseError ∧
    (course_catalog FileState.malformed).2 = .error PyError.parseError ∧
    (∀ code, (course_details FileState.malformed code).2 = .error PyError.parseError) ∧
    (∀ f : Form, allFieldsFilled f = true →
        (add_course_post FileState.malformed f).2 = .error PyError.parseError) ∧
    (∀ data, (save_courses FileState.malformed data).2 = .error PyError.parseError) := by
  refine ⟨rfl, rfl, fun code => rfl, fun f hf => ?_, fun data => rfl⟩
  simp [add_course_post, hf, load_courses]

/-- Witness for C8 at a concrete input: a fully filled form submitted against
a malformed store surfaces the parse error. -/
theorem C8_malformed_parse_error_propagates_witness :
    allFieldsFilled cs101.toForm = true ∧
    (add_course_post FileState.malformed cs101.toForm).2 = .error PyError.parseError :=
  ⟨by decide, C8_malformed_parse_error_propagates.2.2.2.1 cs101.toForm (by decide)⟩

/-- C9: writing any sequence of course records one at a time through
`save_courses`, starting from an absent file, then loading, returns exactly
those records, field-for-field, in insertion order. -/
theorem C9_persist_then_load_roundtrip (records : List Course) :
    (saveAll FileState.absent (records.map Course.toJson)).2 = .ok () ∧
    load_courses (saveAll FileState.absent (records.map Course.toJson)).1
        = .ok (records.map Course.toJson) := by
  cases records with
  | nil => exact ⟨rfl, rfl⟩
  | cons r rest =>
      have h : saveAll FileState.absent (r.toJson :: rest.map Course.toJson)
          = (FileState.jsonList (r.toJson :: rest.map Course.toJson), .ok ()) := by
        simp [saveAll, save_courses, load_courses,
          saveAll_jsonList (rest.map Course.toJson) [r.toJson]]
      exact ⟨by simp [List.map_cons, h], by simp [List.map_cons, h, load_courses]⟩

/-- A scan for a code skips every record before the first match and returns
that match. -/
theorem find?_code_append (code : String) (l1 : List Course) (c : Course)
    (l2 : List Course) (h1 : ∀ b ∈ l1, b.code ≠ code) (hc : c.code = code) :
    (l1 ++ c :: l2).find? (fun x => x.code == code) = some c := by
  induction l1 with
  | nil => simp [List.find?, hc]
  | cons b t ih =>
      have hb : (b.code == code) = false := by
        simp [h1 b (List.mem_cons_self b t)]
      simp only [List.cons_append, List.find?, hb]
      exact ih (fun x hx => h1 x (List.mem_cons_of_mem b hx))

/-- On a catalog of well-formed course records `GET /course/{code}` reduces
to the first-match scan, with no write and no exception. -/
theorem course_details_jsonList_map (courses : List Course) (code : String) :
    course_details (FileState.jsonList (courses.map Course.toJson)) code
      = (FileState.jsonList (courses.map Course.toJson),
         match courses.find? (fun c => c.code == code) with
         | some c => .ok (DetailsResult.details c.toJson)
         | none => .ok DetailsResult.notFound) := by
  simp only [course_details, load_courses, firstCodeMatch_map]
  cases h : courses.find? (fun c => c.code == code) with
  | none => simp [h]
  | some c => simp [h, pyTruthy_toJson]

/-- C6: on a catalog of course records, the details lookup returns not-found
exactly when no record carries the queried code, and otherwise returns the
earliest record carrying it (first match wins when several share the code). -/
theorem C6_details_first_match (courses : List Course) (code : String) :
    ((course_details (FileState.jsonList (courses.map Course.toJson)) code).2
        = .ok DetailsResult.notFound ↔ ∀ c ∈ courses, c.code ≠ code) ∧
    (∀ l1 c l2, courses = l1 ++ c :: l2 → c.code = code →
        (∀ b ∈ l1, b.code ≠ code) →
        (course_details (FileState.jsonList (courses.map Course.toJson)) code).2
          = .ok (DetailsResult.details c.toJson)) := by
  constructor
  · rw [course_details_jsonList_map]
    cases h : courses.find? (fun c => c.code == code) with
    | none =>
        simp only [h]
        constructor
        · intro _ c hcmem hcode
          rw [List.find?_eq_none] at h
          exact h c hcmem (by simp [hcode])
        · intro _
          trivial
    | some c =>
        simp only [h]
        have hcmem : c ∈ courses := List.mem_of_find?_eq_some h
        have hcode : c.code = code := by simpa using List.find?_some h
        constructor
        · intro hcontra
          exact DetailsResult.noConfusion (Except.ok.inj hcontra)
        · intro hall
          exact absurd hcode (hall c hcmem)
  · intro l1 c l2 hsplit hc hall
    rw [course_details_jsonList_map]
    simp only [hsplit, find?_code_append code l1 c l2 hall hc]

/-- Witness for C6 at a concrete input: with two records sharing code
`"CS101"`, the lookup returns the earlier one. -/
theorem C6_details_first_match_witness :
    (course_details (FileState.jsonList ([cs101, cs101b].map Course.toJson)) "CS101").2
      = .ok (DetailsResult.details cs101.toJson) :=
  (C6_details_first_match [cs101, cs101b] "CS101").2 [] cs101 [cs101b] rfl rfl
    (fun b hb => absurd hb (List.not_mem_nil b))

/-- The insertion handler either leaves the file as it was or reports a
successful insertion: no other outcome touches the store. -/
theorem add_course_post_writes_only_on_added (fs : FileState) (f : Form) :
    (add_course_post fs f).1 = fs ∨ (add_course_post fs f).2 = .ok AddResult.added := by
  unfold add_course_post
  split
  · split
    next e heq => left; rfl
    next courses heq =>
      split
      next e2 heq2 => left; rfl
      next heq2 => left; rfl
      next heq2 =>
        split
        next fs2 u heq3 => right; rfl
        next fs2 e2 heq3 =>
          exfalso
          unfold save_courses at heq3
          rw [heq] at heq3
          exact Except.noConfusion (congrArg Prod.snd heq3)
  · left; rfl

/-- C10: the catalog listing, the details lookup, and the `GET` branch of
`/add_course` never change the backing file, and `POST /add_course` changes
it only when it reports a successful insertion. -/
theorem C10_reads_leave_store_unchanged (fs : FileState) (code : String) (f : Form) :
    (course_catalog fs).1 = fs ∧
    (course_details fs code).1 = fs ∧
    add_course_get fs = (fs, ()) ∧
    ((add_course_post fs f).2 ≠ .ok AddResult.added → (add_course_post fs f).1 = fs) := by
  refine ⟨?_, ?_, rfl, ?_⟩
  · unfold course_catalog
    split <;> rfl
  · unfold course_details
    split
    · rfl
    · split
      · rfl
      · split
        · split
          · rfl
          · rfl
        · rfl
  · intro h
    rcases add_course_post_writes_only_on_added fs f with h1 | h2
    · exact h1
    · exact absurd h2 h

/-- Witness for C10 at a concrete input: an invalid submission against an
absent store does not report success and leaves the store absent. -/
theorem C10_reads_leave_store_unchanged_witness :
    (add_course_post FileState.absent emptyCodeForm).1 = FileState.absent :=
  (C10_reads_leave_store_unchanged FileState.absent "CS101" emptyCodeForm).2.2.2
    (fun h => AddResult.noConfusion (Except.ok.inj h))

/-- C1 fails on the code: adding the scenario course to an empty store
succeeds, but the persisted collection's sole (last) element is a JSON ARRAY
— the loaded list with the course appended, nested by the double append of
`courses.append(course)` followed by `save_courses(courses)` — not the
submitted course record. -/
theorem C1_added_last_element_is_nested_list :
    add_course_post FileState.absent cs101.toForm
        = (FileState.jsonList [Json.arr [cs101.toJson]], .ok AddResult.added) ∧
    load_courses (add_course_post FileState.absent cs101.toForm).1
        = .ok [Json.arr [cs101.toJson]] ∧
    [Json.arr [cs101.toJson]].getLast? = some (Json.arr [cs101.toJson]) ∧
    Json.arr [cs101.toJson] ≠ cs101.toJson := by
  refine ⟨rfl, rfl, rfl, fun h => Json.noConfusion h⟩

/-- C2 fails on the code: the successful call does append exactly one element
to the previously empty collection in a single whole-file write, but that
element is not the submitted course record (it is the nested array). -/
theorem C2_success_appends_non_record :
    (add_course_post FileState.absent cs101.toForm).2 = .ok AddResult.added ∧
    (add_course_post FileState.absent cs101.toForm).1
        = FileState.jsonList ([] ++ [Json.arr [cs101.toJson]]) ∧
    Json.arr [cs101.toJson] ≠ form_course cs101.toForm := by
  refine ⟨rfl, rfl, fun h => Json.noConfusion h⟩

/-- C5 fails on the code: after one successful insertion of the scenario
course into an empty store, submitting the same course again raises a
`TypeError` while the duplicate scan subscripts the nested array — not the
duplicate-code outcome — and the store holds the nested array, not the bare
course record from the first insertion. -/
theorem C5_second_duplicate_add_raises :
    add_course_post FileState.absent cs101.toForm
        = (FileState.jsonList [Json.arr [cs101.toJson]], .ok AddResult.added) ∧
    add_course_post (FileState.jsonList [Json.arr [cs101.toJson]]) cs101.toForm
        = (FileState.jsonList [Json.arr [cs101.toJson]], .error PyError.typeError) ∧
    FileState.jsonList [Json.arr [cs101.toJson]] ≠ FileState.jsonList [cs101.toJson] := by
  refine ⟨rfl, rfl, fun h => ?_⟩
  injection h with h2
  injection h2 with h3 h4
  exact Json.noConfusion h3
